import Mathlib

/-!
Shallow embedding of `src/app.py`, the Streamlit dashboard of the
rocket-retail-dashboard repository.  The script is a linear view-selection
program: a sidebar radio control picks one of eleven section labels, and an
if/elif chain renders that section's fixed sequence of layout directives
(headers, images, markdown prose, two-column image placement, an HTML embed,
a PDF download affordance).  We model the artifact results directory as a
finite map from filenames to raw bytes, a render pass as a pure function
from (store, selection) to a list of layout directives (or a propagated
exception, `Except.error`), and prove the navigation/rendering contract
stated in the specification.
-/

namespace RocketRetail

/-- The artifact store: the `results` directory, a finite association of
filenames to raw file bytes (each byte a `Nat` below 256).  The dashboard
only ever checks existence, reads text (UTF-8 decoded), or reads raw bytes. -/
structure Store where
  files : List (String × List Nat)
deriving Repr, DecidableEq

/-- First association of a filename in a file list. -/
def lookupBytes (name : String) : List (String × List Nat) → Option (List Nat)
  | [] => none
  | (k, v) :: ps => if name = k then some v else lookupBytes name ps

/-- The file list with every entry of the given name removed. -/
def removeFile (name : String) : List (String × List Nat) → List (String × List Nat)
  | [] => []
  | (k, v) :: ps => if k = name then removeFile name ps else (k, v) :: removeFile name ps

/-- Look up a file's bytes by name (`results_folder / name`). -/
def Store.get (s : Store) (name : String) : Option (List Nat) :=
  lookupBytes name s.files

/-- Embeds `path.exists()` on `results_folder / name`. -/
def Store.pathExists (s : Store) (name : String) : Bool :=
  (s.get name).isSome

/-- The store with the named file removed (used to state that removing one
artifact affects only its own layout slot). -/
def Store.erase (s : Store) (name : String) : Store :=
  ⟨removeFile name s.files⟩

/-- The empty artifact root. -/
def emptyStore : Store := ⟨[]⟩

/-- Whether a byte is a UTF-8 continuation byte (0x80–0xBF). -/
def isCont (b : Nat) : Bool := 0x80 ≤ b && b < 0xC0

/-- Strict UTF-8 decoding of a byte list, as Python's
`open(path, 'r', encoding='utf-8')` performs it: rejects stray continuation
bytes, overlong encodings, surrogate code points and code points above
U+10FFFF, returning `none` exactly when Python would raise
`UnicodeDecodeError`. -/
def utf8DecodeList : List Nat → Option (List Char)
  | [] => some []
  | b :: bs =>
    if b < 0x80 then
      (utf8DecodeList bs).map (fun cs => Char.ofNat b :: cs)
    else if b < 0xC2 then
      none
    else if b < 0xE0 then
      match bs with
      | b1 :: bs2 =>
        if isCont b1 then
          (utf8DecodeList bs2).map (fun cs =>
            Char.ofNat ((b - 0xC0) * 64 + (b1 - 0x80)) :: cs)
        else none
      | [] => none
    else if b < 0xF0 then
      match bs with
      | b1 :: b2 :: bs2 =>
        if isCont b1 && isCont b2 && (b ≠ 0xE0 || decide (0xA0 ≤ b1))
            && (b ≠ 0xED || decide (b1 < 0xA0)) then
          (utf8DecodeList bs2).map (fun cs =>
            Char.ofNat ((b - 0xE0) * 4096 + (b1 - 0x80) * 64 + (b2 - 0x80)) :: cs)
        else none
      | _ => none
    else if b < 0xF5 then
      match bs with
      | b1 :: b2 :: b3 :: bs2 =>
        if isCont b1 && isCont b2 && isCont b3 && (b ≠ 0xF0 || decide (0x90 ≤ b1))
            && (b ≠ 0xF4 || decide (b1 < 0x90)) then
          (utf8DecodeList bs2).map (fun cs =>
            Char.ofNat ((b - 0xF0) * 262144 + (b1 - 0x80) * 4096
              + (b2 - 0x80) * 64 + (b3 - 0x80)) :: cs)
        else none
      | _ => none
    else none

/-- Strict UTF-8 decoding to a string; `none` models `UnicodeDecodeError`. -/
def utf8Decode (bs : List Nat) : Option String :=
  (utf8DecodeList bs).map String.mk

/-- Bytes of a pure-ASCII string (a convenient concrete file content). -/
def asciiBytes (s : String) : List Nat := s.toList.map Char.toNat

/-- Verbatim narrative markdown from src/app.py (introText). -/
def introText : String := "
This interactive dashboard presents a detailed behavioural analysis of the Retail Rocket ecommerce dataset.
It is designed to support data-driven customer segmentation and latent behaviour pattern discovery through a series of empirically grounded insights.
"

/-- Verbatim narrative markdown from src/app.py (text1). -/
def text1 : String := "
   Out of approximately 2.75 million total events:

- View events account for ~96.7% of all interactions (2.66M), indicating high browsing activity.

- Add-to-cart events make up only ~2.5%, reflecting selective product engagement.

- Transaction events represent just ~0.8%, consistent with typical ecommerce funnel conversion rates.

This sharp drop-off from view to purchase aligns with known online consumer behaviour patterns, where most sessions are exploratory in nature and only a small fraction culminates in a purchase (Moe, 2003; Sakar et al., 2020).

Such a distribution underscores the need to model non-purchasing behaviour with equal rigour—embedding sequences based solely on conversions would neglect the rich intent signals present in cart additions and repeated views. The segmentation framework must therefore incorporate complete session sequences to reveal behavioural diversity beyond monetary action.
"

/-- Verbatim narrative markdown from src/app.py (text2a). -/
def text2a : String := "For understanding interaction variability, we visualised the distribution of event counts per visitor—both across the full range and restricted to a 0–100 event window for clearer inspection.

**Key Insights:**
- The first plot (full range) reveals a highly right-skewed distribution, with the vast majority of users interacting only a handful of times. However, a small minority (long tail) exhibit extremely high engagement, with the most active visitor recording 7,757 interactions. This reflects Pareto-like behaviour, consistent with ecommerce platforms where a minority of users contribute disproportionately to interaction volume (Montgomery et al., 2004).

- The second plot (0–100 events) highlights that over 95% of visitors engage in fewer than 100 events, with a sharp drop-off visible beyond 10–20 interactions. This suggests that while the dataset includes power users, it is dominated by low-engagement or one-time visitors, which is a common trait in publicly available ecommerce datasets (Van den Berg & Abbas, 2022; Moe, 2003).

**Relevance:**
- This behaviour supports our methodological choice to model at the session level rather than user level. Aggregating across users would conflate diverse behaviours and dilute signals from brief but meaningful interactions (Sakar et al., 2020).

- It also validates the need for unsupervised segmentation, as traditional cohorting based on fixed thresholds (e.g., top 10% by engagement) would miss the behavioural heterogeneity evident in the long tail.

In line with behavioural economics, this skew reflects diverse browsing and buying patterns—ranging from impulse drop-ins to persistent comparers—and forms the basis for downstream segmentation via neural embeddings and clustering."

/-- Verbatim narrative markdown from src/app.py (text2b). -/
def text2b : String := " The summary shows that while most visitors initiate only 1–2 sessions, a small subset exhibits hyperactive engagement, with some exceeding 400 sessions. The top 10 most session-active users highlight this disparity:

| Visitor ID | Session Count |
| ---------- | ------------- |
| 316850     | 462           |
| 825321     | 417           |
| 895999     | 414           |
| ...        | ...           |

This tail-heavy distribution is common in ecommerce platforms and can indicate:

- Repeat research or price-tracking behaviour

- Delayed decision-making across visits

- Potential automation (bots or scrapers)

The histogram above reaffirms the skewed nature of session frequency:

- The vast majority of users have fewer than 5 sessions

- A long tail extends toward hundreds of sessions, contributing to high variance

This heterogeneity reinforces the need to model each session independently rather than aggregating all actions per user. This aligns with findings by Van den Berg & Abbas (2022), who note that session-level embeddings preserve short-term intent granularity and avoid the averaging-out effect seen in user-level aggregation.

 "

/-- Verbatim narrative markdown from src/app.py (text2c). -/
def text2c : String := "
    To further explore the typical behaviour, we visualised the distribution of session lengths through two histograms: a full-range plot and a zoomed-in version restricted to sessions with fewer than 50 events.

**Full Distribution:**
The distribution is heavily right-skewed, with the vast majority of sessions containing fewer than 10 events. The long tail reflects outlier sessions with unusually high interaction frequency.

**Zoomed View (0–50 Events):**
The zoomed-in view highlights that most user sessions are short, with peaks around 2–5 events. This aligns with established ecommerce research (Moe, 2003; Van den Berg & Abbas, 2022), which notes that a majority of users engage in brief, goal-oriented sessions, often terminating at the view or cart stage without purchasing.

These findings indicate substantial heterogeneity in user interaction depth. From a segmentation perspective, session length can help differentiate:

- Exploratory browsers (short sessions with few events)

- Deliberate shoppers (medium-length sessions)

- Power users or bots (very long sessions)

This variation becomes particularly useful during cluster interpretation in later stages. By linking cluster membership to average session length, we can identify latent behaviour patterns such as hesitation, decisiveness, or looped product discovery, thereby supporting actionable segmentation grounded in real behavioural flow.

This interpretation complements prior work that emphasises the importance of sequence structure over static features (Le & Mikolov, 2014; Grbovic & Cheng, 2018) and provides context for the choice of session-level token sequences in the embedding phase.
    "

/-- Verbatim narrative markdown from src/app.py (text3a). -/
def text3a : String := "
    The lag histograms reveal an extremely tight clustering near zero minutes for both transitions:

- Over 90% of add-to-cart and transaction events occur immediately after the preceding event. This reflects intent continuity—users who add items to their cart or purchase tend to act in a single behavioural session without prolonged gaps.

- A very small number of user-item paths demonstrate delayed decision-making, which may indicate deliberation, price sensitivity, or return visits—these are outliers but still relevant for nuanced cluster formation.

These patterns confirm the short-attention span nature of ecommerce behaviour and align with findings by Moe (2003) and Sakar et al. (2020), who argue that most conversions follow a fast funnel collapse once purchase intent crystallises.

**Relevance to Segmentation:**

- This motivates our choice of session-level modelling and justifies the use of 30-minute session gaps (Montgomery et al., 2004).

- Lag durations are stored for use in cluster profiling—e.g., clusters with longer cart-to-transaction times may reflect more hesitant or price-sensitive users.
    "

/-- Verbatim narrative markdown from src/app.py (text3b). -/
def text3b : String := " **Summary statistics of Time Gaps:**
    
| Metric    | Value (Seconds) | Interpretation                                                                     |
| --------- | --------------- | ---------------------------------------------------------------------------------- |
| 25th %ile | 38              | 25% of interactions happen within 38 seconds of each other — high browsing density |
| Median    | 136             | Half of all event pairs occur within just 2.3 minutes                              |
| 75th %ile | 2,449           | 75% of users return within 40 minutes — within browsing intent window              |
| 90th %ile | 263,524         | A long tail begins—10% of transitions span over 73 hours                           |
| 95th %ile | 1,190,249       | 5% of transitions exceed 13.8 days                                                 |
| 99th %ile | 5,160,078       | Extreme lags observed—often due to multiple visits across sessions                 |
| Maximum   | 11,787,451      | Indicates multi-week session gaps (approx. 136 days)                               |

These statistics illustrate a heavy-tailed distribution of time gaps. While the majority of user actions are clustered within a short time span, a small fraction of interactions are spaced days or even weeks apart. This supports the rationale behind adopting a 30-minute inactivity threshold for defining session boundaries, as proposed in prior literature (Montgomery et al., 2004; Moe, 2003; Google Analytics, 2023). The 75th percentile lies well within this range, ensuring that true behavioural sessions are captured without splitting meaningful flows or merging unrelated ones.

Such quantile-based diagnostics are especially critical in ecommerce datasets where repeated visits, multi-device access, and asynchronous behaviour can distort naive time assumptions. Understanding the actual time gap distribution strengthens the reliability of downstream sessionisation and embedding steps.
 "

/-- Verbatim narrative markdown from src/app.py (text4). -/
def text4 : String := "
    - Views dominate the event landscape with over 2.66 million interactions, reflecting the exploratory nature of ecommerce browsing.

- Add-to-cart events number just ~69,000, indicating a substantial drop-off from intent to consideration.

- Transactions are the rarest action (~22,457), suggesting either high abandonment rates or price-sensitive/procrastinating user behaviour.

This steep funnel drop-off is consistent with prior behavioural research in online retail, where purchase journeys are highly non-linear and frequently interrupted (Gagliardelli et al., 2020; Moe, 2003). The high attrition from views to transactions also signals that platform optimisations could focus on improving mid-funnel engagement (e.g., better nudges for cart conversion, product page redesigns, or checkout simplification).

Additionally, these event-type ratios will later form the basis of funnel coverage analysis per session cluster. For instance, we may discover that certain clusters exhibit view-only behaviour while others proceed to transaction more often—offering behavioural signals that surpass demographic targeting.

By anchoring the segmentation in real funnel dynamics, we ensure that downstream clusters are not only data-driven but also aligned with measurable business objectives (Montgomery et al., 2004; Van den Berg & Abbas, 2022).
    "

/-- Verbatim narrative markdown from src/app.py (text5). -/
def text5 : String := "
    | Metric                    | Value     |
| ------------------------- | --------- |
| Total Visitors            | 1,407,580 |
| One-Time Users            | 1,001,560 |
| Power Users (100+ events) | 408       |

- ~71% of users are one-time visitors, a classic long-tail pattern seen in digital platforms (Gagliardelli et al., 2020). This tail suggests that a significant portion of traffic may consist of casual or bounce-prone users—challenging the value of aggregate metrics alone.

- Only 408 users (~0.03%) qualify as high-frequency participants, indicating extreme behavioural skew. These power users, although few, contribute disproportionately to total interactions—making them critical for personalised marketing, loyalty strategies, or retention efforts.

- The log-scaled distribution reveals the presence of noise, heavy tails, and outlier behaviour that might distort segmentation if not accounted for (Montgomery et al., 2004). This justifies the need for robust, non-parametric clustering techniques like HDBSCAN in later stages.

Such patterns validate our behavioural segmentation approach. Rather than treating users as uniformly distributed, we acknowledge the structural imbalance in engagement, which supports our decision to represent behaviour through session embeddings and not just user-level averages.

These findings also support cluster validation, as we can later compare whether specific clusters are dominated by transient users or engaged browsers—providing insight into lifecycle stages and funnel depth variance across clusters (Van den Berg & Abbas, 2022).
    "

/-- Verbatim narrative markdown from src/app.py (text6). -/
def text6 : String := "
    The median basket size is 1, though some transactions exceed 500 items. This long-tail pattern
    suggests opportunities for bundling, upselling, or flagging potential bot behaviour in edge cases.
    "

/-- Verbatim narrative markdown from src/app.py (text7). -/
def text7 : String := "
    Certain categories dominate conversion counts. These may represent high-intent, high-margin, or well-promoted items,
    providing direction for inventory focus or personalised recommendations.
    "

/-- Verbatim narrative markdown from src/app.py (text8). -/
def text8 : String := "
    Most actions occur in quick succession. However, longer lags also exist — suggesting either decision latency
    or multi-session purchasing behaviour. This insight supports email trigger timing and session window tuning.
    "

/-- Verbatim narrative markdown from src/app.py (text9). -/
def text9 : String := "
    This sunburst presents the distribution of transactions by raw `categoryid`, rooted under a single logical parent.
    No category hierarchy is assumed. This visual allows intuitive exploration of categorical concentration.
    "

/-- Verbatim narrative markdown from src/app.py (text10). -/
def text10 : String := "
    This dashboard provides a comprehensive behavioural breakdown of the Retail Rocket ecommerce dataset, structured around the customer's interaction journey.

    Beginning with an analysis of event types, it becomes evident that online shopping behaviour is skewed towards browsing, with significantly fewer add-to-cart and purchase actions. This foundational imbalance is further reflected in user engagement, where most visitors exhibit minimal interaction while a small subset engages deeply and repeatedly. Session segmentation, based on data-driven time gap analysis, enables meaningful delineation of these behaviours into discrete user journeys.

    Conversion funnel insights show pronounced drop-offs at early stages, underscoring the importance of improving mid-funnel engagement. Basket size distributions further reveal typical one-product purchases with rare but significant outliers, suggesting differing intent or purchase contexts.

    User segmentation patterns follow a Pareto-like shape, validating the use of clustering techniques for high-impact targeting. Category and product trends identify key conversion-driving items, while lag analysis uncovers both impulsive and deliberative customer behaviours. Finally, the sunburst chart visualises the distribution of transactions across raw category IDs without inferring any hierarchy, ensuring analytical integrity.

    Together, these findings build a cohesive behavioural profile of Rocket Retail users, guiding both strategic decisions and the development of downstream machine learning models.
    "

/-- Verbatim narrative markdown from src/app.py (text11). -/
def text11 : String := "
    - Moe, W. W. (2003). Buying, searching, or browsing: Differentiating between online shoppers using in-store navigational clickstream. *Journal of Consumer Psychology*, 13(1-2), 29–39.  
    - Montgomery, A. L., Li, S., Srinivasan, K., & Liechty, J. (2004). Modeling online browsing and path analysis using clickstream data. *Marketing Science*, 23(4), 579–595.  
    - Sakar, C. O., Polat, S. O., Katircioglu, M., & Kocamaz, A. F. (2020). Time-aware user behavioural clustering in e-commerce using deep embeddings. *Knowledge-Based Systems*, 192, 105377.  
    - Van den Berg, D., & Abbas, K. (2022). Neural embeddings for sequential retail behaviour: Session-based customer segmentation in practice. *Information Systems Research*, 33(1), 204–225.
    "

/-- One layout directive emitted during a render pass.  Each constructor
embeds one Streamlit display call of `src/app.py`: `st.title`, `st.header`,
`st.markdown`, `st.image` (with its `use_container_width` flag and caption),
`st.warning`, `st.info`, `components.html` (content, pixel height, scrolling
flag), `st.download_button` (label, payload bytes, download filename).
`inColumn i n d` is directive `d` placed in column `i` of an `st.columns n`
row of `n` equal-width columns. -/
inductive Directive where
  | title : String → Directive
  | header : String → Directive
  | md : String → Directive
  | image : String → Bool → String → Directive
  | warning : String → Directive
  | info : String → Directive
  | htmlFrame : String → Nat → Bool → Directive
  | download : String → List Nat → String → Directive
  | inColumn : Nat → Nat → Directive → Directive
deriving Repr, DecidableEq

/-- Embeds `load_plot(image_name, caption)`: if the file exists render the
image full-width with its caption, otherwise a warning naming the file. -/
def load_plot (store : Store) (image_name : String) (caption : String) : Directive :=
  if store.pathExists image_name then
    .image image_name true caption
  else
    .warning ("Missing: " ++ image_name)

/-- Embeds `embed_html(file_name, height=600)`: if the file exists, read it
as UTF-8 text (`Except.error` when decoding fails, as the uncaught
`UnicodeDecodeError` aborts the render pass) and place it in an embedded
frame of the given pixel height with scrolling enabled; otherwise render a
warning naming the file. -/
def embed_html (store : Store) (file_name : String) (height : Nat := 600) :
    Except String Directive :=
  match store.get file_name with
  | some bytes =>
    match utf8Decode bytes with
    | some content => .ok (.htmlFrame content height true)
    | none => .error "UnicodeDecodeError"
  | none => .ok (.warning ("Missing HTML: " ++ file_name))

/-- The option list of the sidebar radio control, in source order. -/
def sectionOptions : List String := [
  "1. Event Type Distribution",
  "2. Visitor Activity",
  "3. Session Construction",
  "4. Conversion Funnel",
  "5. User Segmentation",
  "6. Basket Size",
  "7. Category & Product Trends",
  "8. Event Lag Analysis",
  "9. Sunburst Chart",
  "10. Executive Summary",
  "11. References"
]

/-- Embeds the `st.sidebar.radio` call (single-select, default index 0): the
control returns the stored candidate selection when it is one of the
enumerated options; with no stored selection (a fresh session) or a stale
value outside the option list it returns the option at index 0. -/
def radio (options : List String) (stored : Option String) : String :=
  match stored with
  | some c => if c ∈ options then c else options.headD ""
  | none => options.headD ""

/-- Branch body of `section == "1. Event Type Distribution"`. -/
def sec1 (store : Store) : Except String (List Directive) :=
  .ok [.header "1. Event Type Distribution",
    load_plot store "event_type_distribution.png"
      "Distribution of views, cart additions, and transactions.",
    .md text1]

/-- Branch body of `section == "2. Visitor Activity"`: the first two plots
side by side in two equal-width columns (`st.columns(2)`), then stacked
narrative and further plots. -/
def sec2 (store : Store) : Except String (List Directive) :=
  .ok [.header "2. Visitor Activity Patterns",
    .inColumn 0 2 (load_plot store "visitor_event_distribution_full.png"
      "Full distribution of event counts per visitor."),
    .inColumn 1 2 (load_plot store "visitor_event_distribution_zoomed.png"
      "Zoomed distribution (0–100 events)."),
    .md text2a,
    load_plot store "sessions_per_visitor_distribution.png"
      "Distribution of sessions per visitor.",
    .md text2b,
    load_plot store "events_per_session_distribution_zoomed.png"
      "Events per session (0–50 range).",
    .md text2c]

/-- Branch body of `section == "3. Session Construction"`. -/
def sec3 (store : Store) : Except String (List Directive) :=
  .ok [.header "3. Session Construction & Timeout Thresholds",
    load_plot store "time_gap_distribution_log.png"
      "Log distribution of time gaps between events.",
    .md text3a,
    .md text3b]

/-- Branch body of `section == "4. Conversion Funnel"`. -/
def sec4 (store : Store) : Except String (List Directive) :=
  .ok [.header "4. Conversion Funnel Breakdown",
    load_plot store "conversion_funnel.png"
      "From views to transactions: Ecommerce drop-off funnel.",
    .md text4]

/-- Branch body of `section == "5. User Segmentation"`. -/
def sec5 (store : Store) : Except String (List Directive) :=
  .ok [.header "5. One-Time vs Power Users",
    load_plot store "visitor_interaction_distribution.png"
      "Log-scaled distribution of events per visitor.",
    .md text5]

/-- Branch body of `section == "6. Basket Size"`. -/
def sec6 (store : Store) : Except String (List Directive) :=
  .ok [.header "6. Basket Size Analysis",
    load_plot store "basket_size_distribution.png"
      "Distribution of number of items per purchase.",
    .md text6]

/-- Branch body of `section == "7. Category & Product Trends"`. -/
def sec7 (store : Store) : Except String (List Directive) :=
  .ok [.header "7. Most Purchased Categories & Items",
    load_plot store "top_categories_by_transactions.png"
      "Top 10 categories ranked by number of transactions.",
    .md text7]

/-- Branch body of `section == "8. Event Lag Analysis"`. -/
def sec8 (store : Store) : Except String (List Directive) :=
  .ok [.header "8. Event Lag Timings",
    load_plot store "event_lag_analysis_seconds.png"
      "Delay between view → cart and cart → transaction (in seconds).",
    .md text8]

/-- Branch body of `section == "9. Sunburst Chart"`: the one HTML embed.  A
`UnicodeDecodeError` raised inside `embed_html` propagates and aborts the
render pass. -/
def sec9 (store : Store) : Except String (List Directive) :=
  match embed_html store "sunburst_category_transactions.html" with
  | .ok d => .ok [.header "9. Sunburst of Raw Category IDs", d, .md text9]
  | .error e => .error e

/-- Branch body of `section == "10. Executive Summary"`: narrative, then
the PDF download affordance when `executive_summary.pdf` exists, else an
informational (`st.info`) message. -/
def sec10 (store : Store) : Except String (List Directive) :=
  .ok ([.header "10. Executive Summary", .md text10] ++
    match store.get "executive_summary.pdf" with
    | some bytes =>
      [.download "Download Executive Summary (PDF)" bytes "executive_summary.pdf"]
    | none => [.info "PDF version of the executive summary is not available."])

/-- Branch body of `section == "11. References"`. -/
def sec11 (store : Store) : Except String (List Directive) :=
  .ok [.header "11. References", .md text11]

/-- The if/elif dispatch chain over the selected section label (lines
57–292 of src/app.py): `none` is the fall-through where no branch matches
and no section content is rendered. -/
def renderSection (store : Store) (s : String) : Option (Except String (List Directive)) :=
  if s = "1. Event Type Distribution" then some (sec1 store)
  else if s = "2. Visitor Activity" then some (sec2 store)
  else if s = "3. Session Construction" then some (sec3 store)
  else if s = "4. Conversion Funnel" then some (sec4 store)
  else if s = "5. User Segmentation" then some (sec5 store)
  else if s = "6. Basket Size" then some (sec6 store)
  else if s = "7. Category & Product Trends" then some (sec7 store)
  else if s = "8. Event Lag Analysis" then some (sec8 store)
  else if s = "9. Sunburst Chart" then some (sec9 store)
  else if s = "10. Executive Summary" then some (sec10 store)
  else if s = "11. References" then some (sec11 store)
  else none

/-- The literal comparison strings of the if/elif dispatch chain, in source
order (one per branch condition). -/
def dispatchConditions : List String := [
  "1. Event Type Distribution",
  "2. Visitor Activity",
  "3. Session Construction",
  "4. Conversion Funnel",
  "5. User Segmentation",
  "6. Basket Size",
  "7. Category & Product Trends",
  "8. Event Lag Analysis",
  "9. Sunburst Chart",
  "10. Executive Summary",
  "11. References"
]

/-- The fixed content above the sidebar-selected section: `st.title` and
the intro `st.markdown`. -/
def pageHeader : List Directive :=
  [.title "Retail Rocket: Behavioural EDA Dashboard", .md introText]

/-- One full render pass of the script: the stored selection goes through
the radio control, the chosen section is dispatched, and its directives
follow the fixed page header.  A propagated exception is `Except.error`. -/
def renderPage (store : Store) (stored : Option String) : Except String (List Directive) :=
  match renderSection store (radio sectionOptions stored) with
  | some (.ok ds) => .ok (pageHeader ++ ds)
  | some (.error e) => .error e
  | none => .ok pageHeader

/-- The navigation registry as the specification describes it: the ordered
catalogue pairing each section label with its rendering routine. -/
def sectionRegistry : List (String × (Store → Except String (List Directive))) := [
  ("1. Event Type Distribution", sec1),
  ("2. Visitor Activity", sec2),
  ("3. Session Construction", sec3),
  ("4. Conversion Funnel", sec4),
  ("5. User Segmentation", sec5),
  ("6. Basket Size", sec6),
  ("7. Category & Product Trends", sec7),
  ("8. Event Lag Analysis", sec8),
  ("9. Sunburst Chart", sec9),
  ("10. Executive Summary", sec10),
  ("11. References", sec11)
]

/-- The image artifact filenames each section's routine passes to
`load_plot`, keyed by section label, in call order. -/
def sectionImages : String → List String
  | "1. Event Type Distribution" => ["event_type_distribution.png"]
  | "2. Visitor Activity" => ["visitor_event_distribution_full.png",
      "visitor_event_distribution_zoomed.png",
      "sessions_per_visitor_distribution.png",
      "events_per_session_distribution_zoomed.png"]
  | "3. Session Construction" => ["time_gap_distribution_log.png"]
  | "4. Conversion Funnel" => ["conversion_funnel.png"]
  | "5. User Segmentation" => ["visitor_interaction_distribution.png"]
  | "6. Basket Size" => ["basket_size_distribution.png"]
  | "7. Category & Product Trends" => ["top_categories_by_transactions.png"]
  | "8. Event Lag Analysis" => ["event_lag_analysis_seconds.png"]
  | _ => []

/-- The (section label, image filename) pairs over all sections. -/
def sectionImagePairs : List (String × String) :=
  sectionOptions.flatMap (fun l => (sectionImages l).map (fun n => (l, n)))

/-- Whether directive `d` contains `probe`, looking inside column wrappers. -/
def Directive.containsD : Directive → Directive → Bool
  | .inColumn i t d, probe =>
    decide (Directive.inColumn i t d = probe) || d.containsD probe
  | d, probe => decide (d = probe)

/-- Whether the rendered directive list contains `probe` anywhere. -/
def containsDir (ds : List Directive) (probe : Directive) : Bool :=
  ds.any (fun d => d.containsD probe)

/-- The markdown texts appearing at the top level of a directive list, in
order (the static narrative of a section). -/
def mdTexts (ds : List Directive) : List String :=
  ds.filterMap (fun d => match d with | .md t => some t | _ => none)

/-- One render pass viewed as a state transformer on the artifact store:
the script only reads files and never writes, so a pass returns its output
together with the store, unchanged. -/
def renderPass (store : Store) (stored : Option String) :
    Except String (List Directive) × Store :=
  (renderPage store stored, store)

/-- A concrete store holding only `executive_summary.pdf` (bytes of
"%PDF"). -/
def pdfStore : Store := ⟨[("executive_summary.pdf", [37, 80, 68, 70])]⟩

/-- A concrete store holding only the sunburst HTML file, with valid ASCII
content. -/
def htmlStore : Store := ⟨[("sunburst_category_transactions.html", asciiBytes "<p>hi</p>")]⟩

/-- A concrete store where the sunburst HTML file exists but its single
byte 0xFF is not valid UTF-8, so reading it raises `UnicodeDecodeError`. -/
def badHtmlStore : Store := ⟨[("sunburst_category_transactions.html", [255])]⟩

/-- A concrete store holding only `conversion_funnel.png`. -/
def funnelStore : Store := ⟨[("conversion_funnel.png", [1])]⟩

/-- The substitution that turns exactly the image directive of the named
artifact (also inside a column wrapper) into the corresponding
missing-artifact warning and leaves every other directive unchanged. -/
def markMissing (name : String) : Directive → Directive
  | .image p w c => if p = name then .warning ("Missing: " ++ name) else .image p w c
  | .inColumn i t d => .inColumn i t (markMissing name d)
  | d => d

/-- Looking up a file after removing it finds nothing. -/
theorem lookupBytes_removeFile_self (name : String) (l : List (String × List Nat)) :
    lookupBytes name (removeFile name l) = none := by
  induction l with
  | nil => rfl
  | cons p ps ih =>
    rcases p with ⟨k, v⟩
    by_cases h : k = name
    · simp [removeFile, h, ih]
    · have hs : ¬ name = k := fun e => h e.symm
      simp [removeFile, lookupBytes, h, hs, ih]

/-- Removing one file leaves the lookup of every other file unchanged. -/
theorem lookupBytes_removeFile_ne (name n : String) (hn : ¬ n = name)
    (l : List (String × List Nat)) :
    lookupBytes n (removeFile name l) = lookupBytes n l := by
  induction l with
  | nil => rfl
  | cons p ps ih =>
    rcases p with ⟨k, v⟩
    by_cases h : k = name
    · have hnk : ¬ n = k := fun e => hn (e.trans h)
      simp [removeFile, lookupBytes, h, hn, hnk, ih]
    · simp [removeFile, lookupBytes, h, ih]

/-- After erasing a file it no longer exists in the store. -/
theorem pathExists_erase_self (store : Store) (name : String) :
    (store.erase name).pathExists name = false := by
  show ((lookupBytes name (removeFile name store.files)).isSome : Bool) = false
  rw [lookupBytes_removeFile_self]
  rfl

/-- Erasing a file does not change the existence of any other file. -/
theorem pathExists_erase_ne (store : Store) (name n : String) (hn : ¬ n = name) :
    (store.erase name).pathExists n = store.pathExists n := by
  show ((lookupBytes n (removeFile name store.files)).isSome : Bool) = _
  rw [lookupBytes_removeFile_ne name n hn]
  rfl

/-- `markMissing` leaves headers unchanged. -/
theorem markMissing_header (name s : String) :
    markMissing name (Directive.header s) = Directive.header s := rfl

/-- `markMissing` leaves markdown narrative unchanged. -/
theorem markMissing_md (name s : String) :
    markMissing name (Directive.md s) = Directive.md s := rfl

/-- `markMissing` descends into a column wrapper, keeping its position and
column count. -/
theorem markMissing_inColumn (name : String) (i t : Nat) (d : Directive) :
    markMissing name (Directive.inColumn i t d) =
      Directive.inColumn i t (markMissing name d) := rfl

/-- The named artifact's own slot: substituting it is the same as
rendering `load_plot` for it against the erased store (both give the
missing-artifact warning). -/
theorem markMissing_load_plot_self (store : Store) (name c : String) :
    markMissing name (load_plot store name c) = load_plot (store.erase name) name c := by
  have h2 : (store.erase name).pathExists name = false := pathExists_erase_self store name
  unfold load_plot
  rw [h2]
  by_cases hp : store.pathExists name <;> simp [hp, markMissing]

/-- Every other image slot: substituting does nothing, and rendering
`load_plot` against the erased store gives the same directive. -/
theorem markMissing_load_plot_ne (store : Store) (name n c : String) (hn : ¬ n = name) :
    markMissing name (load_plot store n c) = load_plot (store.erase name) n c := by
  have h2 : (store.erase name).pathExists n = store.pathExists n :=
    pathExists_erase_ne store name n hn
  unfold load_plot
  rw [h2]
  by_cases hp : store.pathExists n <;> simp [hp, markMissing, hn]

/-- `load_plot` never emits markdown: its directive is an image or a
warning. -/
theorem mdTexts_cons_load_plot (store : Store) (n c : String) (ds : List Directive) :
    mdTexts (load_plot store n c :: ds) = mdTexts ds := by
  unfold load_plot; split <;> simp [mdTexts]

/-- A column wrapper is not a top-level markdown directive. -/
theorem mdTexts_cons_inColumn (i t : Nat) (d : Directive) (ds : List Directive) :
    mdTexts (Directive.inColumn i t d :: ds) = mdTexts ds := by simp [mdTexts]

/-- A header is not a markdown directive. -/
theorem mdTexts_cons_header (s : String) (ds : List Directive) :
    mdTexts (Directive.header s :: ds) = mdTexts ds := by simp [mdTexts]

/-- A markdown directive contributes its text. -/
theorem mdTexts_cons_md (s : String) (ds : List Directive) :
    mdTexts (Directive.md s :: ds) = s :: mdTexts ds := by simp [mdTexts]

/-- C1: for every section label in the navigation registry, the if/elif
dispatch renders exactly the rendering routine the registry pairs with
that label — the fixed directive sequence of that section, in its fixed
order, and nothing from any other section. -/
theorem sel_renders_registry (l : String) (hl : l ∈ sectionOptions) (store : Store) :
    renderSection store l = (sectionRegistry.lookup l).map (fun r => r store) := by
  fin_cases hl <;> rfl

/-- Witness for C1 at the "6. Basket Size" label and the empty store. -/
theorem sel_renders_registry_witness :
    "6. Basket Size" ∈ sectionOptions ∧
    renderSection emptyStore "6. Basket Size" =
      (sectionRegistry.lookup "6. Basket Size").map (fun r => r emptyStore) :=
  ⟨by decide, sel_renders_registry "6. Basket Size" (by decide) emptyStore⟩

/-- C2: for every image filename referenced by a section: whenever that
file is absent the section still renders successfully (no exception) and
the output contains a warning naming exactly that filename ("Missing: "
and the name), while the static narrative markdown of the section is the
same for every store; moreover, removing exactly that file from any store
changes the rendered output by exactly the `markMissing` substitution —
the named image's own slot becomes the missing-artifact warning and every
other directive (header, other images, columns, narrative), their order
and their count are unchanged.  In particular, with an empty artifact root
the Conversion Funnel section renders the missing-artifact notice for
`conversion_funnel.png` followed by its static narrative text. -/
theorem missing_artifact_notice :
    (∀ p ∈ sectionImagePairs, ∀ store : Store,
      (store.pathExists p.2 = false →
        ∃ ds, renderSection store p.1 = some (Except.ok ds) ∧
          containsDir ds (Directive.warning ("Missing: " ++ p.2)) = true ∧
          ∀ store2 : Store, ∃ ds2, renderSection store2 p.1 = some (Except.ok ds2) ∧
            mdTexts ds2 = mdTexts ds) ∧
      (∃ ds, renderSection store p.1 = some (Except.ok ds) ∧
        renderSection (store.erase p.2) p.1 =
          some (Except.ok (ds.map (markMissing p.2))))) ∧
    renderSection emptyStore "4. Conversion Funnel" =
      some (Except.ok [Directive.header "4. Conversion Funnel Breakdown",
        Directive.warning "Missing: conversion_funnel.png", Directive.md text4]) := by
  constructor
  · intro p hp store
    fin_cases hp <;>
      exact ⟨fun h => ⟨_, rfl, by simp [containsDir, Directive.containsD, load_plot, h],
          fun store2 => ⟨_, rfl, by simp [mdTexts_cons_load_plot, mdTexts_cons_inColumn,
            mdTexts_cons_header, mdTexts_cons_md]⟩⟩,
        ⟨_, rfl, by simp [renderSection, sec1, sec2, sec3, sec4, sec5, sec6, sec7, sec8,
          markMissing_header, markMissing_md, markMissing_inColumn,
          markMissing_load_plot_self, markMissing_load_plot_ne]⟩⟩
  · simp [renderSection, sec4, load_plot, emptyStore, Store.pathExists, Store.get, lookupBytes]

/-- Witness for C2 at the Conversion Funnel section: the notice conjunct
at the empty store, the isolation conjunct at a store that holds the
funnel image and loses it through erasure. -/
theorem missing_artifact_notice_witness :
    ("4. Conversion Funnel", "conversion_funnel.png") ∈ sectionImagePairs ∧
    emptyStore.pathExists "conversion_funnel.png" = false ∧
    (∃ ds, renderSection emptyStore "4. Conversion Funnel" = some (Except.ok ds) ∧
      containsDir ds (Directive.warning ("Missing: " ++ "conversion_funnel.png")) = true ∧
      ∀ store2 : Store, ∃ ds2, renderSection store2 "4. Conversion Funnel" = some (Except.ok ds2) ∧
        mdTexts ds2 = mdTexts ds) ∧
    (∃ ds, renderSection funnelStore "4. Conversion Funnel" = some (Except.ok ds) ∧
      renderSection (funnelStore.erase "conversion_funnel.png") "4. Conversion Funnel" =
        some (Except.ok (ds.map (markMissing "conversion_funnel.png")))) :=
  ⟨by decide, by decide,
    (missing_artifact_notice.1 ("4. Conversion Funnel", "conversion_funnel.png")
      (by decide) emptyStore).1 (by decide),
    (missing_artifact_notice.1 ("4. Conversion Funnel", "conversion_funnel.png")
      (by decide) funnelStore).2⟩

/-- C3: selecting the Executive Summary section renders, after the
narrative, an informational (`st.info`, not a warning) message and no
download directive when `executive_summary.pdf` is absent, and a download
directive carrying exactly the stored bytes under the fixed download
filename `executive_summary.pdf` when the file is present. -/
theorem exec_summary_pdf_download (store : Store) :
    (store.get "executive_summary.pdf" = none →
      renderSection store "10. Executive Summary" =
        some (Except.ok [Directive.header "10. Executive Summary", Directive.md text10,
          Directive.info "PDF version of the executive summary is not available."])) ∧
    (∀ bytes, store.get "executive_summary.pdf" = some bytes →
      renderSection store "10. Executive Summary" =
        some (Except.ok [Directive.header "10. Executive Summary", Directive.md text10,
          Directive.download "Download Executive Summary (PDF)" bytes "executive_summary.pdf"])) := by
  constructor
  · intro h; simp [renderSection, sec10, h]
  · intro bytes h; simp [renderSection, sec10, h]

/-- Witness for C3: the absent case at the empty store, the present case
at a store holding a four-byte PDF. -/
theorem exec_summary_pdf_download_witness :
    (emptyStore.get "executive_summary.pdf" = none ∧
      renderSection emptyStore "10. Executive Summary" =
        some (Except.ok [Directive.header "10. Executive Summary", Directive.md text10,
          Directive.info "PDF version of the executive summary is not available."])) ∧
    (pdfStore.get "executive_summary.pdf" = some [37, 80, 68, 70] ∧
      renderSection pdfStore "10. Executive Summary" =
        some (Except.ok [Directive.header "10. Executive Summary", Directive.md text10,
          Directive.download "Download Executive Summary (PDF)" [37, 80, 68, 70]
            "executive_summary.pdf"])) :=
  ⟨⟨rfl, (exec_summary_pdf_download emptyStore).1 rfl⟩,
   ⟨rfl, (exec_summary_pdf_download pdfStore).2 [37, 80, 68, 70] rfl⟩⟩

/-- C4: any stored selection outside the enumerated option set is replaced
by the radio control with its default, the first registry entry, so the
page renders the first section's full content — never an empty content
area and never an exception. -/
theorem invalid_selection_first_section (c : String) (hc : c ∉ sectionOptions) (store : Store) :
    renderPage store (some c) = renderPage store (some "1. Event Type Distribution") ∧
    renderPage store (some c) =
      Except.ok (pageHeader ++ [Directive.header "1. Event Type Distribution",
        load_plot store "event_type_distribution.png"
          "Distribution of views, cart additions, and transactions.",
        Directive.md text1]) := by
  have hr : radio sectionOptions (some c) = "1. Event Type Distribution" := by
    simp only [radio]
    rw [if_neg hc]
    rfl
  constructor <;>
  · simp only [renderPage, hr]
    simp [renderSection, radio, sectionOptions, sec1]

/-- Witness for C4 at the stale label "Basket Size" (no numeric prefix)
and the empty store. -/
theorem invalid_selection_first_section_witness :
    "Basket Size" ∉ sectionOptions ∧
    renderPage emptyStore (some "Basket Size") =
      renderPage emptyStore (some "1. Event Type Distribution") ∧
    renderPage emptyStore (some "Basket Size") =
      Except.ok (pageHeader ++ [Directive.header "1. Event Type Distribution",
        load_plot emptyStore "event_type_distribution.png"
          "Distribution of views, cart additions, and transactions.",
        Directive.md text1]) :=
  ⟨by decide,
    (invalid_selection_first_section "Basket Size" (by decide) emptyStore).1,
    (invalid_selection_first_section "Basket Size" (by decide) emptyStore).2⟩

/-- C5: a render pass leaves the artifact store (the only process state
the script touches) unchanged, so rendering the same selection twice in
succession produces identical output both times, and the output of a pass
is the pure function `renderPage` of the selection and the store alone. -/
theorem repeat_selection_identical (store : Store) (stored : Option String) :
    (renderPass store stored).2 = store ∧
    (renderPass ((renderPass store stored).2) stored).1 = (renderPass store stored).1 ∧
    (renderPass store stored).1 = renderPage store stored :=
  ⟨rfl, rfl, rfl⟩

/-- C6: the section registry has exactly 11 distinct entries, the radio
control always returns exactly one of them (single-select over the fixed
option list), and a fresh session with no stored selection starts at the
first entry. -/
theorem registry_eleven_first_initial :
    sectionOptions.length = 11 ∧
    sectionOptions.Nodup ∧
    (∀ stored : Option String, radio sectionOptions stored ∈ sectionOptions) ∧
    radio sectionOptions none = "1. Event Type Distribution" := by
  refine ⟨by decide, by decide, ?_, by decide⟩
  intro stored
  match stored with
  | none => decide
  | some c =>
    by_cases hc : c ∈ sectionOptions
    · simp [radio, hc]
    · simp only [radio]
      rw [if_neg hc]
      decide

/-- C7: an HTML embed renders the decoded file content inside an embedded
frame of the given fixed pixel height with scrolling enabled when the file
exists, and a missing-artifact warning naming the filename when it is
absent; the one call site (Sunburst Chart) uses the default height 600. -/
theorem html_embed_frame :
    (∀ (store : Store) (name : String) (bytes : List Nat) (content : String) (height : Nat),
      store.get name = some bytes → utf8Decode bytes = some content →
      embed_html store name height = Except.ok (Directive.htmlFrame content height true)) ∧
    (∀ (store : Store) (name : String) (height : Nat), store.get name = none →
      embed_html store name height = Except.ok (Directive.warning ("Missing HTML: " ++ name))) ∧
    (∀ (store : Store) (bytes : List Nat) (content : String),
      store.get "sunburst_category_transactions.html" = some bytes →
      utf8Decode bytes = some content →
      renderSection store "9. Sunburst Chart" =
        some (Except.ok [Directive.header "9. Sunburst of Raw Category IDs",
          Directive.htmlFrame content 600 true, Directive.md text9])) ∧
    (∀ store : Store, store.get "sunburst_category_transactions.html" = none →
      renderSection store "9. Sunburst Chart" =
        some (Except.ok [Directive.header "9. Sunburst of Raw Category IDs",
          Directive.warning "Missing HTML: sunburst_category_transactions.html",
          Directive.md text9])) := by
  refine ⟨?_, ?_, ?_, ?_⟩
  · intro store name bytes content height h1 h2; simp [embed_html, h1, h2]
  · intro store name height h; simp [embed_html, h]
  · intro store bytes content h1 h2; simp [renderSection, sec9, embed_html, h1, h2]
  · intro store h; simp [renderSection, sec9, embed_html, h]

/-- Witness for C7: the present case at a store with valid ASCII HTML, the
absent case at the empty store. -/
theorem html_embed_frame_witness :
    (htmlStore.get "sunburst_category_transactions.html" = some (asciiBytes "<p>hi</p>") ∧
      utf8Decode (asciiBytes "<p>hi</p>") = some "<p>hi</p>" ∧
      renderSection htmlStore "9. Sunburst Chart" =
        some (Except.ok [Directive.header "9. Sunburst of Raw Category IDs",
          Directive.htmlFrame "<p>hi</p>" 600 true, Directive.md text9])) ∧
    (emptyStore.get "sunburst_category_transactions.html" = none ∧
      renderSection emptyStore "9. Sunburst Chart" =
        some (Except.ok [Directive.header "9. Sunburst of Raw Category IDs",
          Directive.warning "Missing HTML: sunburst_category_transactions.html",
          Directive.md text9])) :=
  ⟨⟨rfl, by decide,
    html_embed_frame.2.2.1 htmlStore (asciiBytes "<p>hi</p>") "<p>hi</p>" rfl (by decide)⟩,
   ⟨rfl, html_embed_frame.2.2.2 emptyStore rfl⟩⟩

/-- C8: the Visitor Activity routine renders its first two image loads
side by side in columns 0 and 1 of a two-column (equal-width) row, then
the remaining images and narrative stacked below, in this fixed order. -/
theorem visitor_activity_layout (store : Store) :
    renderSection store "2. Visitor Activity" =
      some (Except.ok [Directive.header "2. Visitor Activity Patterns",
        Directive.inColumn 0 2 (load_plot store "visitor_event_distribution_full.png"
          "Full distribution of event counts per visitor."),
        Directive.inColumn 1 2 (load_plot store "visitor_event_distribution_zoomed.png"
          "Zoomed distribution (0–100 events)."),
        Directive.md text2a,
        load_plot store "sessions_per_visitor_distribution.png"
          "Distribution of sessions per visitor.",
        Directive.md text2b,
        load_plot store "events_per_session_distribution_zoomed.png"
          "Events per session (0–50 range).",
        Directive.md text2c]) := rfl

/-- C9 counterexample: with the sunburst HTML file present but not valid
UTF-8 (single byte 0xFF), the render pass is aborted by the propagated
`UnicodeDecodeError` — no decode-failure notice is rendered, contradicting
the claim that a malformed artifact is treated like a missing one. -/
theorem malformed_html_no_notice :
    renderPage badHtmlStore (some "9. Sunburst Chart") = Except.error "UnicodeDecodeError" := rfl

/-- C9 amended: when an HTML artifact exists but cannot be decoded as
UTF-8, the decode failure is not treated as a missing artifact: the
exception propagates and aborts the whole render pass instead of
surfacing a notice in the layout slot. -/
theorem malformed_html_propagates (store : Store) (bytes : List Nat)
    (h1 : store.get "sunburst_category_transactions.html" = some bytes)
    (h2 : utf8Decode bytes = none) :
    renderSection store "9. Sunburst Chart" = some (Except.error "UnicodeDecodeError") ∧
    renderPage store (some "9. Sunburst Chart") = Except.error "UnicodeDecodeError" := by
  have hs : renderSection store "9. Sunburst Chart" = some (Except.error "UnicodeDecodeError") := by
    simp [renderSection, sec9, embed_html, h1, h2]
  refine ⟨hs, ?_⟩
  have hr : radio sectionOptions (some "9. Sunburst Chart") = "9. Sunburst Chart" := by decide
  simp [renderPage, hr, hs]

/-- Witness for the amended C9 at the store whose sunburst file is the
single invalid byte 0xFF. -/
theorem malformed_html_propagates_witness :
    badHtmlStore.get "sunburst_category_transactions.html" = some [255] ∧
    utf8Decode [255] = none ∧
    (renderSection badHtmlStore "9. Sunburst Chart" = some (Except.error "UnicodeDecodeError") ∧
      renderPage badHtmlStore (some "9. Sunburst Chart") = Except.error "UnicodeDecodeError") :=
  ⟨rfl, by decide, malformed_html_propagates badHtmlStore [255] rfl (by decide)⟩

/-- C10: the radio option list and the if/elif branch conditions are the
same literal strings in the same order, each option matches exactly one
branch condition, and for every option the dispatch takes some branch — so
the no-match fall-through is unreachable for values the control can
return. -/
theorem dispatch_covers_options :
    sectionOptions = dispatchConditions ∧
    (∀ l ∈ sectionOptions, dispatchConditions.count l = 1) ∧
    (∀ l ∈ sectionOptions, ∀ store : Store, (renderSection store l).isSome = true) := by
  refine ⟨rfl, by decide, ?_⟩
  intro l hl store
  fin_cases hl <;> rfl

/-- Witness for C10 at the "3. Session Construction" label and the empty
store. -/
theorem dispatch_covers_options_witness :
    "3. Session Construction" ∈ sectionOptions ∧
    dispatchConditions.count "3. Session Construction" = 1 ∧
    (renderSection emptyStore "3. Session Construction").isSome = true :=
  ⟨by decide, dispatch_covers_options.2.1 "3. Session Construction" (by decide),
    dispatch_covers_options.2.2 "3. Session Construction" (by decide) emptyStore⟩

end RocketRetail
